import Mathlib

/-!
Verification development for the credential export/import component
(src/src/components/QRCodeAuth.jsx) of the shogun-auth repository.

The component is shallowly embedded: JavaScript values flowing through the
component are modelled by the `Json` tree below, the platform codecs
(JSON.stringify / JSON.parse / btoa / atob / URL) are modelled by concrete
executable Lean functions, and the component's handlers (the export
useEffect, handleScan, the cancel-scan button) become pure functions over
explicit state.
-/

/-- JSON value tree. Numbers are restricted to natural numbers, which covers
every numeric field this protocol produces (the `exportedAt` timestamp from
`Date.now()`); none of the claims depend on fractional or negative numbers. -/
inductive Json where
  | null : Json
  | bool : Bool → Json
  | num : Nat → Json
  | str : String → Json
  | arr : List Json → Json
  | obj : List (String × Json) → Json

/-- JavaScript truthiness of a value (`!x` in the source negates this):
`null`, `false`, `0` and the empty string are falsy; objects and arrays are
always truthy. -/
def truthyJson : Json → Bool
  | Json.null => false
  | Json.bool b => b
  | Json.num n => n != 0
  | Json.str s => s != ""
  | Json.arr _ => true
  | Json.obj _ => true

/-- JavaScript property read `j.k` in positions where `j` is known not to be
null/undefined: a field lookup on objects, `undefined` (here `none`) on
every non-object. -/
def jsGetPure (j : Json) (k : String) : Option Json :=
  match j with
  | Json.obj fields => fields.lookup k
  | _ => none

/-- Truthiness of a possibly-undefined value. -/
def truthyOptJson : Option Json → Bool
  | some v => truthyJson v
  | none => false

/-- `j.k` is present and truthy. -/
def fieldTruthy (j : Json) (k : String) : Bool :=
  truthyOptJson (jsGetPure j k)

/-- The opening-brace character, written numerically. -/
def lbrace : Char := Char.ofNat 123

/-- The closing-brace character, written numerically. -/
def rbrace : Char := Char.ofNat 125

/-- JSON string escaping of one character: quote and backslash are escaped,
every other character is emitted verbatim (control-character `\uXXXX`
escaping is omitted; it never changes whether a round trip succeeds). -/
def escapeChar (c : Char) : List Char :=
  if c = '"' then ['\\', '"']
  else if c = '\\' then ['\\', '\\'] else [c]

/-- Escaped body of a JSON string literal. -/
def escapeList (l : List Char) : List Char :=
  (l.map escapeChar).flatten

/-- Rendering of a JSON string literal, `JSON.stringify` style. -/
def renderString (s : String) : List Char :=
  '"' :: escapeList s.data ++ ['"']

/-- Decimal digit character. -/
def digitChar : Nat → Char
  | 0 => '0'
  | 1 => '1'
  | 2 => '2'
  | 3 => '3'
  | 4 => '4'
  | 5 => '5'
  | 6 => '6'
  | 7 => '7'
  | 8 => '8'
  | _ => '9'

/-- Decimal rendering, fuel-guided; the fuel always exceeds the digit
count. -/
def natToCharsAux : Nat → Nat → List Char
  | 0, _ => []
  | fuel + 1, n =>
    if n < 10 then [digitChar n]
    else natToCharsAux fuel (n / 10) ++ [digitChar (n % 10)]

/-- Decimal rendering of a natural number, most significant digit first. -/
def natToChars (n : Nat) : List Char :=
  natToCharsAux (n + 1) n

mutual

/-- Canonical (whitespace-free) rendering of a JSON value, exactly the text
`JSON.stringify` produces for the values this component builds. -/
def renderJson : Json → List Char
  | Json.null => ['n', 'u', 'l', 'l']
  | Json.bool true => ['t', 'r', 'u', 'e']
  | Json.bool false => ['f', 'a', 'l', 's', 'e']
  | Json.num n => natToChars n
  | Json.str s => renderString s
  | Json.arr xs => '[' :: renderElems xs ++ [']']
  | Json.obj ms => lbrace :: renderMembers ms ++ [rbrace]

/-- Comma-separated rendering of array elements. -/
def renderElems : List Json → List Char
  | [] => []
  | [x] => renderJson x
  | x :: y :: xs => renderJson x ++ ',' :: renderElems (y :: xs)

/-- Comma-separated rendering of object members, keys in insertion order. -/
def renderMembers : List (String × Json) → List Char
  | [] => []
  | [(k, v)] => renderString k ++ ':' :: renderJson v
  | (k, v) :: m :: ms => renderString k ++ ':' :: renderJson v ++ ',' :: renderMembers (m :: ms)

end

/-- Model of `JSON.stringify`. -/
def jsonStringify (j : Json) : String :=
  String.mk (renderJson j)

/-- JSON string-literal escape resolution for the character after a
backslash. -/
def unescapeChar (c : Char) : Option Char :=
  if c = '"' then some '"'
  else if c = '\\' then some '\\'
  else if c = '/' then some '/'
  else if c = 'n' then some (Char.ofNat 10)
  else if c = 't' then some (Char.ofNat 9)
  else if c = 'r' then some (Char.ofNat 13)
  else if c = 'b' then some (Char.ofNat 8)
  else if c = 'f' then some (Char.ofNat 12)
  else none

/-- Parse the body of a JSON string literal after its opening quote; returns
the decoded characters and the text following the closing quote. -/
def parseStringBody : List Char → Option (List Char × List Char)
  | [] => none
  | c :: cs =>
    if c = '"' then some ([], cs)
    else if c = '\\' then
      match cs with
      | [] => none
      | e :: cs2 =>
        match unescapeChar e, parseStringBody cs2 with
        | some u, some p => some (u :: p.1, p.2)
        | _, _ => none
    else
      match parseStringBody cs with
      | some p => some (c :: p.1, p.2)
      | none => none

/-- Expect the given characters verbatim at the head of the input. -/
def expectChars : List Char → List Char → Option (List Char)
  | [], cs => some cs
  | p :: ps, c :: cs => if c = p then expectChars ps cs else none
  | _ :: _, [] => none

/-- Expect one given character at the head of the input. -/
def expectChar (p : Char) : List Char → Option (List Char)
  | [] => none
  | c :: cs => if c = p then some cs else none

/-- Fold of decimal digits from an arbitrary accumulator. -/
def natFromAux (acc : Nat) (l : List Char) : Nat :=
  l.foldl (fun a c => a * 10 + (c.toNat - 48)) acc

/-- Place value of the rendered digits of `n`, mirroring the recursion of
`natToCharsAux`. -/
def tenPowAux : Nat → Nat → Nat
  | 0, _ => 1
  | fuel + 1, n => if n < 10 then 10 else tenPowAux fuel (n / 10) * 10

/-- Accumulate a decimal digit list into a natural number. -/
def natFromDigits (l : List Char) : Nat :=
  l.foldl (fun a c => a * 10 + (c.toNat - 48)) 0

/-- Parse a natural-number token (the only numeric shape this protocol
emits). -/
def parseNatTok (cs : List Char) : Option (Json × List Char) :=
  let ds := cs.takeWhile Char.isDigit
  if ds.isEmpty then none
  else some (Json.num (natFromDigits ds), cs.dropWhile Char.isDigit)

/-- One parsing step for a JSON value, with the object-member and
array-element parsers passed in; `parseValue` below ties the knot. -/
def parseValueStep (pm : List Char → Option (List (String × Json) × List Char))
    (pe : List Char → Option (List Json × List Char)) :
    List Char → Option (Json × List Char)
  | [] => none
  | c :: cs =>
    if c = '"' then
      match parseStringBody cs with
      | some p => some (Json.str (String.mk p.1), p.2)
      | none => none
    else if c = lbrace then
      match cs with
      | [] => none
      | d :: cs2 =>
        if d = rbrace then some (Json.obj [], cs2)
        else
          match pm (d :: cs2) with
          | some p => some (Json.obj p.1, p.2)
          | none => none
    else if c = '[' then
      match cs with
      | [] => none
      | d :: cs2 =>
        if d = ']' then some (Json.arr [], cs2)
        else
          match pe (d :: cs2) with
          | some p => some (Json.arr p.1, p.2)
          | none => none
    else if c = 'n' then
      match expectChars ['u', 'l', 'l'] cs with
      | some r => some (Json.null, r)
      | none => none
    else if c = 't' then
      match expectChars ['r', 'u', 'e'] cs with
      | some r => some (Json.bool true, r)
      | none => none
    else if c = 'f' then
      match expectChars ['a', 'l', 's', 'e'] cs with
      | some r => some (Json.bool false, r)
      | none => none
    else parseNatTok (c :: cs)

/-- One parsing step for a nonempty object-member list (up to and including
the closing brace), with the value parser and the rest-of-members parser
passed in. -/
def parseMembersStep (pv : List Char → Option (Json × List Char))
    (pm : List Char → Option (List (String × Json) × List Char))
    (cs : List Char) : Option (List (String × Json) × List Char) :=
  match expectChar '"' cs with
  | none => none
  | some r1 =>
    match parseStringBody r1 with
    | none => none
    | some (k, r2) =>
      match expectChar ':' r2 with
      | none => none
      | some r3 =>
        match pv r3 with
        | none => none
        | some (v, r4) =>
          match r4 with
          | [] => none
          | x :: r5 =>
            if x = ',' then
              match pm r5 with
              | some p => some ((String.mk k, v) :: p.1, p.2)
              | none => none
            else if x = rbrace then some ([(String.mk k, v)], r5)
            else none

/-- One parsing step for a nonempty array-element list (up to and including
the closing bracket). -/
def parseElemsStep (pv : List Char → Option (Json × List Char))
    (pe : List Char → Option (List Json × List Char))
    (cs : List Char) : Option (List Json × List Char) :=
  match pv cs with
  | none => none
  | some (v, r1) =>
    match r1 with
    | [] => none
    | x :: r2 =>
      if x = ',' then
        match pe r2 with
        | some p => some (v :: p.1, p.2)
        | none => none
      else if x = ']' then some ([v], r2)
      else none

mutual

/-- Recursive-descent parser for canonical JSON values; the fuel bounds the
nesting depth. Model of `JSON.parse` on whitespace-free texts. -/
def parseValue : Nat → List Char → Option (Json × List Char)
  | 0, _ => none
  | fuel + 1, cs => parseValueStep (parseMembers fuel) (parseElems fuel) cs

/-- Parse a nonempty member list of a JSON object, up to and including the
closing brace. -/
def parseMembers : Nat → List Char → Option (List (String × Json) × List Char)
  | 0, _ => none
  | fuel + 1, cs => parseMembersStep (parseValue fuel) (parseMembers fuel) cs

/-- Parse a nonempty element list of a JSON array, up to and including the
closing bracket. -/
def parseElems : Nat → List Char → Option (List Json × List Char)
  | 0, _ => none
  | fuel + 1, cs => parseElemsStep (parseValue fuel) (parseElems fuel) cs

end

/-- Model of `JSON.parse` on canonical texts: the whole input must be one
JSON value. The fuel exceeds any possible nesting depth of the input. -/
def jsonParse (s : String) : Option Json :=
  match parseValue (s.data.length + 16) s.data with
  | some (j, []) => some j
  | _ => none

/-- The base64 alphabet, as used by `btoa`. -/
def base64Alphabet : List Char :=
  "ABCDEFGHIJKLMNOPQRSTUVWXYZabcdefghijklmnopqrstuvwxyz0123456789+/".data

/-- Base64 alphabet character for a sextet. -/
def b64CharOf (n : Nat) : Char :=
  base64Alphabet.getD n 'A'

/-- Position of a character in the base64 alphabet. -/
def b64Index (c : Char) : Option Nat :=
  let i := base64Alphabet.indexOf c
  if i < 64 then some i else none

/-- Base64-encode a byte list, three bytes to four characters, with `=`
padding. -/
def b64EncodeBytes : List Nat → List Char
  | [] => []
  | [a] => [b64CharOf (a / 4), b64CharOf (a % 4 * 16), '=', '=']
  | [a, b] => [b64CharOf (a / 4), b64CharOf (a % 4 * 16 + b / 16), b64CharOf (b % 16 * 4), '=']
  | a :: b :: c :: rest =>
    b64CharOf (a / 4) :: b64CharOf (a % 4 * 16 + b / 16) ::
      b64CharOf (b % 16 * 4 + c / 64) :: b64CharOf (c % 64) :: b64EncodeBytes rest

/-- Base64-decode a character list back to bytes. -/
def b64DecodeChars : List Char → Option (List Nat)
  | [] => some []
  | c1 :: c2 :: c3 :: c4 :: rest =>
    match b64Index c1 with
    | none => none
    | some i1 =>
      match b64Index c2 with
      | none => none
      | some i2 =>
        if c3 = '=' then some [i1 * 4 + i2 / 16]
        else
          match b64Index c3 with
          | none => none
          | some i3 =>
            if c4 = '=' then some [i1 * 4 + i2 / 16, i2 % 16 * 16 + i3 / 4]
            else
              match b64Index c4 with
              | none => none
              | some i4 =>
                match b64DecodeChars rest with
                | some bs =>
                  some ((i1 * 4 + i2 / 16) :: (i2 % 16 * 16 + i3 / 4) :: (i3 % 4 * 64 + i4) :: bs)
                | none => none
  | _ => none

/-- Model of the platform `btoa`: treats the string as a byte sequence and
base64-encodes it; throws (here `none`) when any code point exceeds 255. -/
def btoa (s : String) : Option String :=
  if s.data.all (fun c => c.toNat < 256) then
    some (String.mk (b64EncodeBytes (s.data.map Char.toNat)))
  else none

/-- Model of the platform `atob`: base64-decode back to a byte string. -/
def atob (s : String) : Option String :=
  match b64DecodeChars s.data with
  | some bs => some (String.mk (bs.map Char.ofNat))
  | none => none

/-- A URL as built by `new URL(origin)` followed by `searchParams.set`:
an origin plus named query parameters. -/
structure JsUrl where
  origin : String
  params : List (String × String)

/-- The URL the export effect builds for the link format:
`new URL(window.location.origin)` then
`url.searchParams.set("magic_login", base64Data)`. -/
def mkMagicUrl (origin b64 : String) : JsUrl :=
  { origin := origin, params := [("magic_login", b64)] }

/-- Query-parameter lookup, as `searchParams.get` performs on the resulting
URL. -/
def getParam (u : JsUrl) (k : String) : Option String :=
  u.params.lookup k

/-- Uppercase hexadecimal digit character. -/
def hexDigit : Nat → Char
  | 0 => '0'
  | 1 => '1'
  | 2 => '2'
  | 3 => '3'
  | 4 => '4'
  | 5 => '5'
  | 6 => '6'
  | 7 => '7'
  | 8 => '8'
  | 9 => '9'
  | 10 => 'A'
  | 11 => 'B'
  | 12 => 'C'
  | 13 => 'D'
  | 14 => 'E'
  | _ => 'F'

/-- application/x-www-form-urlencoded serialization of one character of a
query-parameter value (ASCII fragment; the values serialized here are
base64 texts, which are ASCII). -/
def formEncodeChar (c : Char) : List Char :=
  if c.isAlphanum || c = '-' || c = '.' || c = '_' || c = '*' then [c]
  else if c = ' ' then ['+']
  else if c.toNat < 256 then ['%', hexDigit (c.toNat / 16), hexDigit (c.toNat % 16)]
  else [c]

/-- Serialization of one query parameter. -/
def paramText (p : String × String) : String :=
  p.1 ++ "=" ++ String.mk ((p.2.data.map formEncodeChar).flatten)

/-- Serialization of a query-parameter list. -/
def queryText : List (String × String) → String
  | [] => ""
  | [p] => paramText p
  | p :: q :: ps => paramText p ++ "&" ++ queryText (q :: ps)

/-- `url.toString()`: origin, root path, then the serialized query. -/
def urlToString (u : JsUrl) : String :=
  match u.params with
  | [] => u.origin ++ "/"
  | _ => u.origin ++ "/?" ++ queryText u.params

/-- The four-field SEA keypair, the unit this component transports.
Source roles: `pub`/`priv` signing, `epub`/`epriv` encryption. -/
structure SeaPair where
  pub : String
  priv : String
  epub : String
  epriv : String

/-- Structural completeness of a keypair: all four fields non-empty, the
check at line 69 of the source. -/
def completeSea (k : SeaPair) : Bool :=
  k.pub != "" && k.priv != "" && k.epub != "" && k.epriv != ""

/-- The `pair` object of the export envelope (lines 77-82 of the source):
the four fields copied in order. -/
def pairToJson (k : SeaPair) : Json :=
  Json.obj
    [("pub", Json.str k.pub), ("priv", Json.str k.priv),
     ("epub", Json.str k.epub), ("epriv", Json.str k.epriv)]

/-- `user.is.alias || user.is.pub.substring(0, 10)` (line 83): the alias if
truthy, else the first ten characters of the account public key. -/
def mkUsername (aliasOpt : Option String) (userPub : String) : String :=
  match aliasOpt with
  | some a => if a == "" then userPub.take 10 else a
  | none => userPub.take 10

/-- The export envelope built at lines 74-85 of the source, with its exact
key order. -/
def exportEnvelope (k : SeaPair) (aliasOpt : Option String) (userPub : String) (now : Nat) : Json :=
  Json.obj
    [("type", Json.str "shogun-auth-pair"), ("version", Json.str "1.0"),
     ("pair", pairToJson k),
     ("username", Json.str (mkUsername aliasOpt userPub)), ("exportedAt", Json.num now)]

/-- The Raw transport text: `JSON.stringify(exportData)` (line 87). -/
def encodeRawText (k : SeaPair) (aliasOpt : Option String) (userPub : String) (now : Nat) : String :=
  jsonStringify (exportEnvelope k aliasOpt userPub now)

/-- The Link transport (lines 89-96): base64 the JSON text with `btoa`, set
it as the single `magic_login` query parameter on the app's own origin.
`none` models the `btoa` throw on non-8-bit text, which the surrounding
catch turns into a failed export. -/
def encodeLinkUrl (k : SeaPair) (aliasOpt : Option String) (userPub : String) (now : Nat)
    (origin : String) : Option JsUrl :=
  match btoa (encodeRawText k aliasOpt userPub now) with
  | some b64 => some (mkMagicUrl origin b64)
  | none => none

/-- The Link transport as the display text `url.toString()` (line 96). -/
def encodeLinkText (k : SeaPair) (aliasOpt : Option String) (userPub : String) (now : Nat)
    (origin : String) : Option String :=
  match encodeLinkUrl k aliasOpt userPub now origin with
  | some u => some (urlToString u)
  | none => none

/-- The three storage tiers the export effect reads (lines 45-67):
`sdkPair` is the `core.storage.getPairSync()` result when that API exists,
`storedText` is `localStorage.getItem('shogun_keypair')` (`none` = null),
`sessionPair` is the final value of the legacy expression
`(core.user && core.user._ && core.user._.sea) || user._?.sea`
(`Json.null` when both sides are absent). -/
structure ExportTiers where
  sdkPair : Option Json
  storedText : Option String
  sessionPair : Json

/-- Value contributed by the localStorage tier (lines 53-62): an empty or
absent stored text is skipped, a stored text that fails to parse is caught
and contributes nothing (`Json.null`), otherwise the parsed value. -/
def tier2Value : Option String → Json
  | none => Json.null
  | some s =>
    if s == "" then Json.null
    else
      match jsonParse s with
      | some j => j
      | none => Json.null

/-- The `seaPair` value after the three fallback reads (lines 45-67): each
later tier is consulted only while the accumulated value is falsy. -/
def resolveChain (t : ExportTiers) : Json :=
  let s1 := match t.sdkPair with
    | some j => j
    | none => Json.null
  let s2 := if truthyJson s1 then s1 else tier2Value t.storedText
  if truthyJson s2 then s2 else t.sessionPair

/-- Four-field completeness of a resolved value, the guard at line 69:
`!seaPair || !seaPair.pub || !seaPair.priv || !seaPair.epub ||
!seaPair.epriv` throws. -/
def completePairJson (j : Json) : Bool :=
  truthyJson j && fieldTruthy j "pub" && fieldTruthy j "priv" &&
    fieldTruthy j "epub" && fieldTruthy j "epriv"

/-- The whole resolver: the fallback chain followed by the completeness
guard; the error is the thrown message of line 70. -/
def resolvePair (t : ExportTiers) : Except String Json :=
  let p := resolveChain t
  if completePairJson p then Except.ok p
  else Except.error "SEA pair not available - try logging in again"

/-- Whether the SDK tier by itself yields a complete keypair. -/
def tier1Complete (t : ExportTiers) : Bool :=
  match t.sdkPair with
  | some j => completePairJson j
  | none => false

/-- Whether the localStorage tier by itself yields a complete keypair. -/
def tier2Complete (t : ExportTiers) : Bool :=
  completePairJson (tier2Value t.storedText)

/-- Whether the legacy session tier by itself yields a complete keypair. -/
def tier3Complete (t : ExportTiers) : Bool :=
  completePairJson t.sessionPair

/-- No storage tier yields a structurally complete keypair. -/
def noTierComplete (t : ExportTiers) : Bool :=
  !tier1Complete t && !tier2Complete t && !tier3Complete t

/-- The distinct failures `handleScan` can raise before reaching
`user.auth` (lines 120-130): the `JSON.parse` SyntaxError, the TypeError of
a property read on null, `Error("Invalid QR code format")`, and
`Error("Invalid key pair structure")`. -/
inductive ScanErr where
  | jsonSyntax : ScanErr
  | nullAccess : ScanErr
  | invalidFormat : ScanErr
  | invalidPairStructure : ScanErr
  deriving DecidableEq

/-- `scanData.type !== "shogun-auth-pair"` is false exactly when the field
is the string `"shogun-auth-pair"`. -/
def isTypeOk (ty : Option Json) : Bool :=
  match ty with
  | some (Json.str s) => s == "shogun-auth-pair"
  | _ => false

/-- Property read `j.k` including the JavaScript TypeError on null. -/
def jsGet (j : Json) (k : String) : Except ScanErr (Option Json) :=
  match j with
  | Json.null => Except.error ScanErr.nullAccess
  | Json.obj fields => Except.ok (fields.lookup k)
  | _ => Except.ok none

/-- The validation performed on parsed scan data (lines 124-130), returning
the `scanData.pair` value that is handed to `user.auth`. -/
def scanValidate (scanData : Json) : Except ScanErr Json :=
  match jsGet scanData "type" with
  | Except.error e => Except.error e
  | Except.ok ty =>
    if isTypeOk ty then
      match jsGet scanData "pair" with
      | Except.error e => Except.error e
      | Except.ok op =>
        match op with
        | none => Except.error ScanErr.invalidPairStructure
        | some p =>
          if truthyJson p then
            if fieldTruthy p "pub" then
              if fieldTruthy p "priv" then Except.ok p
              else Except.error ScanErr.invalidPairStructure
            else Except.error ScanErr.invalidPairStructure
          else Except.error ScanErr.invalidPairStructure
    else Except.error ScanErr.invalidFormat

/-- The decode-and-validate pipeline of `handleScan` (lines 120-130):
`JSON.parse` on the scanned text, then the shape checks; on success the
result is the keypair object handed to the authentication call. -/
def handleScanParse (data : String) : Except ScanErr Json :=
  match jsonParse data with
  | none => Except.error ScanErr.jsonSyntax
  | some j => scanValidate j

/-- The component state touched by the import flow: the `scanning`,
`loading` and `error` React state cells. -/
structure CompState where
  scanning : Bool
  loading : Bool
  error : Option String
  deriving DecidableEq

/-- Entry of `handleScan` (lines 113-118): a falsy payload (null or the
empty string) returns at once; otherwise scanning stops, loading starts,
the error clears, and the payload goes on to decode. The second component
is the payload that continues into decode/validate/authenticate, `none`
when processing stops here. -/
def handleScanEntry (data : Option String) (s : CompState) : CompState × Option String :=
  match data with
  | none => (s, none)
  | some d =>
    if d == "" then (s, none)
    else ({ s with scanning := false, loading := true, error := none }, some d)

/-- The cancel-scan button (lines 373-376): stop scanning and clear the
error. -/
def cancelScan (s : CompState) : CompState :=
  { s with scanning := false, error := none }

/-- Externally visible effect of finishing an import attempt. -/
inductive AuthEffect where
  | closeAndReload : AuthEffect
  | noEffect : AuthEffect
  deriving DecidableEq

/-- How `handleScan` applies the outcome of its try block to the component
(lines 150-159): success alerts, closes the modal and reloads the page;
any thrown error (decode, validation or `user.auth` rejection) sets the
error message and clears loading. The current state is not consulted. -/
def applyScanOutcome (r : Except String Json) (s : CompState) : CompState × AuthEffect :=
  match r with
  | Except.ok _ => (s, AuthEffect.closeAndReload)
  | Except.error m => ({ s with error := some m, loading := false }, AuthEffect.noEffect)

/-- Sample complete keypair used by concrete witnesses. -/
def samplePair : SeaPair :=
  ⟨"p1", "q2", "r3", "s4"⟩

/-- Sample truthy but incomplete storage-tier value: an object carrying only
`pub`. -/
def samplePartial : Json :=
  Json.obj [("pub", Json.str "p1")]

/-- Sample complete keypair whose `pub` contains a code point above 255
(U+0100), legal in a JavaScript string but rejected by `btoa`. -/
def sampleWidePair : SeaPair :=
  ⟨String.mk [Char.ofNat 256], "q2", "r3", "s4"⟩

/-! Round-trip lemmas for the JSON codec model. -/

theorem parseStringBody_cons_quote (rest : List Char) :
    parseStringBody ('"' :: rest) = some ([], rest) := by
  rw [parseStringBody.eq_def]
  simp

theorem parseStringBody_cons_esc (e : Char) (u : Char) (cs : List Char)
    (hu : unescapeChar e = some u) :
    parseStringBody ('\\' :: e :: cs) =
      match parseStringBody cs with
      | some p => some (u :: p.1, p.2)
      | none => none := by
  rw [parseStringBody.eq_def]
  simp [hu]
  cases parseStringBody cs <;> simp

theorem parseStringBody_cons_plain (c : Char) (cs : List Char)
    (h1 : ¬ c = '"') (h2 : ¬ c = '\\') :
    parseStringBody (c :: cs) =
      match parseStringBody cs with
      | some p => some (c :: p.1, p.2)
      | none => none := by
  rw [parseStringBody.eq_def]
  simp [h1, h2]

theorem parseStringBody_escape (l : List Char) (rest : List Char) :
    parseStringBody (escapeList l ++ '"' :: rest) = some (l, rest) := by
  induction l with
  | nil => simpa [escapeList] using parseStringBody_cons_quote rest
  | cons c t ih =>
    have hesc : escapeList (c :: t) ++ '"' :: rest =
        escapeChar c ++ (escapeList t ++ '"' :: rest) := by
      simp [escapeList]
    rw [hesc]
    by_cases h1 : c = '"'
    · subst h1
      rw [show escapeChar '"' = ['\\', '"'] from by decide]
      rw [show ['\\', '"'] ++ (escapeList t ++ '"' :: rest) =
        '\\' :: '"' :: (escapeList t ++ '"' :: rest) from rfl]
      rw [parseStringBody_cons_esc '"' '"' _ (by decide)]
      simp [ih]
    · by_cases h2 : c = '\\'
      · subst h2
        rw [show escapeChar '\\' = ['\\', '\\'] from by decide]
        rw [show ['\\', '\\'] ++ (escapeList t ++ '"' :: rest) =
          '\\' :: '\\' :: (escapeList t ++ '"' :: rest) from rfl]
        rw [parseStringBody_cons_esc '\\' '\\' _ (by decide)]
        simp [ih]
      · rw [show escapeChar c = [c] from by simp [escapeChar, h1, h2]]
        rw [show [c] ++ (escapeList t ++ '"' :: rest) =
          c :: (escapeList t ++ '"' :: rest) from rfl]
        rw [parseStringBody_cons_plain c _ h1 h2]
        simp [ih]

theorem parseValue_renderString (fuel : Nat) (s : String) (rest : List Char) :
    parseValue (fuel + 1) (renderString s ++ rest) = some (Json.str s, rest) := by
  have h : renderString s ++ rest = '"' :: (escapeList s.data ++ '"' :: rest) := by
    simp [renderString]
  rw [h, parseValue]
  rw [parseValueStep.eq_def]
  simp [parseStringBody_escape]

theorem digitChar_isDigit (d : Nat) : (digitChar d).isDigit = true := by
  unfold digitChar
  split <;> decide

theorem digitChar_toNat (d : Nat) (h : d < 10) : (digitChar d).toNat = 48 + d := by
  interval_cases d <;> decide

theorem natToCharsAux_all_digits (fuel : Nat) :
    ∀ n, n < fuel → ∀ c ∈ natToCharsAux fuel n, c.isDigit = true := by
  induction fuel with
  | zero => intro n h; omega
  | succ f ih =>
    intro n _ c hc
    rw [natToCharsAux] at hc
    by_cases h10 : n < 10
    · simp [h10] at hc
      subst hc
      exact digitChar_isDigit n
    · simp [h10] at hc
      rcases hc with hc | hc
      · exact ih (n / 10) (by omega) c hc
      · subst hc
        exact digitChar_isDigit (n % 10)

theorem natToCharsAux_ne_nil (fuel n : Nat) (h : n < fuel) :
    natToCharsAux fuel n ≠ [] := by
  cases fuel with
  | zero => omega
  | succ f =>
    rw [natToCharsAux]
    by_cases h10 : n < 10 <;> simp [h10]

theorem natFromAux_append (acc : Nat) (l1 l2 : List Char) :
    natFromAux acc (l1 ++ l2) = natFromAux (natFromAux acc l1) l2 := by
  simp [natFromAux, List.foldl_append]

theorem natFromAux_natToCharsAux (fuel : Nat) :
    ∀ n acc, n < fuel →
      natFromAux acc (natToCharsAux fuel n) = acc * tenPowAux fuel n + n := by
  induction fuel with
  | zero => intro n acc h; omega
  | succ f ih =>
    intro n acc _
    rw [natToCharsAux, tenPowAux]
    by_cases h10 : n < 10
    · simp only [if_pos h10, natFromAux, List.foldl_cons, List.foldl_nil]
      rw [digitChar_toNat n h10]
      omega
    · simp only [if_neg h10]
      rw [natFromAux_append, ih (n / 10) acc (by omega)]
      simp only [natFromAux, List.foldl_cons, List.foldl_nil]
      rw [digitChar_toNat (n % 10) (by omega)]
      have heq : (acc * tenPowAux f (n / 10) + n / 10) * 10 + (48 + n % 10 - 48)
          = acc * (tenPowAux f (n / 10) * 10) + (n / 10 * 10 + n % 10) := by
        ring_nf
        omega
      rw [heq]
      omega

theorem natFromDigits_natToChars (n : Nat) : natFromDigits (natToChars n) = n := by
  have h := natFromAux_natToCharsAux (n + 1) n 0 (by omega)
  simpa [natToChars, natFromDigits, natFromAux] using h

theorem takeWhile_append_of (p : Char → Bool) (l r : List Char)
    (hl : ∀ c ∈ l, p c = true) (hr : ∀ c, r.head? = some c → p c = false) :
    (l ++ r).takeWhile p = l ∧ (l ++ r).dropWhile p = r := by
  induction l with
  | nil =>
    cases r with
    | nil => simp
    | cons c t => simp [List.takeWhile, List.dropWhile, hr c rfl]
  | cons c t ih =>
    have hc : p c = true := hl c (by simp)
    have iht := ih (fun x hx => hl x (by simp [hx]))
    simp [List.takeWhile, List.dropWhile, hc, iht.1, iht.2]

theorem parseNatTok_render (n : Nat) (rest : List Char)
    (hr : ∀ c, rest.head? = some c → c.isDigit = false) :
    parseNatTok (natToChars n ++ rest) = some (Json.num n, rest) := by
  have hall : ∀ c ∈ natToChars n, c.isDigit = true :=
    natToCharsAux_all_digits (n + 1) n (by omega)
  have htk := takeWhile_append_of Char.isDigit (natToChars n) rest hall hr
  rw [parseNatTok]
  simp only [htk.1, htk.2]
  have hne : natToChars n ≠ [] := natToCharsAux_ne_nil (n + 1) n (by omega)
  simp [List.isEmpty_iff, hne, natFromDigits_natToChars]

theorem isDigit_ne_of (c x : Char) (hd : c.isDigit = true) (hx : x.isDigit = false) :
    ¬ c = x := by
  intro h
  rw [h, hx] at hd
  exact absurd hd (by simp)
theorem parseValue_render_num (fuel n : Nat) (rest : List Char)
    (hr : ∀ c, rest.head? = some c → c.isDigit = false) :
    parseValue (fuel + 1) (natToChars n ++ rest) = some (Json.num n, rest) := by
  have hex : ∃ c cs, natToChars n = c :: cs := by
    cases h : natToChars n with
    | nil => exact absurd h (natToCharsAux_ne_nil (n + 1) n (by omega))
    | cons c cs => exact ⟨c, cs, rfl⟩
  obtain ⟨c, cs, hcons⟩ := hex
  have hdig : c.isDigit = true := by
    refine natToCharsAux_all_digits (n + 1) n (by omega) c ?_
    rw [show natToCharsAux (n + 1) n = natToChars n from rfl, hcons]
    simp
  have happ : natToChars n ++ rest = c :: (cs ++ rest) := by rw [hcons]; simp
  rw [happ, parseValue]
  rw [parseValueStep.eq_def]
  simp only [isDigit_ne_of c '"' hdig (by decide), if_neg,
    isDigit_ne_of c lbrace hdig (by decide),
    isDigit_ne_of c '[' hdig (by decide),
    isDigit_ne_of c 'n' hdig (by decide),
    isDigit_ne_of c 't' hdig (by decide),
    isDigit_ne_of c 'f' hdig (by decide), ite_false, if_false]
  have hback : parseNatTok (c :: (cs ++ rest)) = parseNatTok (natToChars n ++ rest) := by
    rw [hcons]
    rfl
  rw [hback]
  exact parseNatTok_render n rest hr

theorem parseMembers_cons_of (k : String) (vtext : List Char) (v : Json) (fuel : Nat)
    (cs : List Char) (ms : List (String × Json)) (rest : List Char)
    (hv : parseValue (fuel + 1) (vtext ++ ',' :: cs) = some (v, ',' :: cs))
    (hm : parseMembers (fuel + 1) cs = some (ms, rest)) :
    parseMembers (fuel + 2) (renderString k ++ ':' :: (vtext ++ ',' :: cs)) =
      some ((k, v) :: ms, rest) := by
  have hx : renderString k ++ ':' :: (vtext ++ ',' :: cs) =
      '"' :: (escapeList k.data ++ '"' :: (':' :: (vtext ++ ',' :: cs))) := by
    simp [renderString]
  rw [show parseMembers (fuel + 2) =
    parseMembersStep (parseValue (fuel + 1)) (parseMembers (fuel + 1)) from rfl]
  rw [hx, parseMembersStep]
  simp [expectChar, parseStringBody_escape, hv, hm]

theorem parseMembers_last_of (k : String) (vtext : List Char) (v : Json) (fuel : Nat)
    (rest : List Char)
    (hv : parseValue (fuel + 1) (vtext ++ rbrace :: rest) = some (v, rbrace :: rest)) :
    parseMembers (fuel + 2) (renderString k ++ ':' :: (vtext ++ rbrace :: rest)) =
      some ([(k, v)], rest) := by
  have hx : renderString k ++ ':' :: (vtext ++ rbrace :: rest) =
      '"' :: (escapeList k.data ++ '"' :: (':' :: (vtext ++ rbrace :: rest))) := by
    simp [renderString]
  rw [show parseMembers (fuel + 2) =
    parseMembersStep (parseValue (fuel + 1)) (parseMembers (fuel + 1)) from rfl]
  rw [hx, parseMembersStep]
  simp [expectChar, parseStringBody_escape, hv, show ¬ rbrace = ',' from by decide]
theorem parseValue_obj_of (fuel : Nat) (ks : String) (tail : List Char)
    (ms : List (String × Json)) (rest : List Char)
    (hm : parseMembers fuel (renderString ks ++ tail) = some (ms, rest)) :
    parseValue (fuel + 1) (lbrace :: (renderString ks ++ tail)) = some (Json.obj ms, rest) := by
  have hcs : renderString ks ++ tail = '"' :: (escapeList ks.data ++ '"' :: tail) := by
    simp [renderString]
  rw [hcs] at hm ⊢
  rw [show parseValue (fuel + 1) = parseValueStep (parseMembers fuel) (parseElems fuel) from rfl]
  rw [parseValueStep.eq_def]
  simp [show ¬ lbrace = '"' from by decide, show ¬ ('"' : Char) = rbrace from by decide, hm]

theorem parseValue_render_pairObj (fuel : Nat) (k : SeaPair) (rest : List Char) :
    parseValue (fuel + 6) (renderJson (pairToJson k) ++ rest) =
      some (pairToJson k, rest) := by
  have h3 := parseMembers_last_of "epriv" (renderString k.epriv) (Json.str k.epriv) fuel rest
    (parseValue_renderString fuel k.epriv (rbrace :: rest))
  have h2 := parseMembers_cons_of "epub" (renderString k.epub) (Json.str k.epub) (fuel + 1)
    (renderString "epriv" ++ ':' :: (renderString k.epriv ++ rbrace :: rest))
    [("epriv", Json.str k.epriv)] rest
    (parseValue_renderString (fuel + 1) k.epub _) h3
  have h1 := parseMembers_cons_of "priv" (renderString k.priv) (Json.str k.priv) (fuel + 2)
    (renderString "epub" ++ ':' :: (renderString k.epub ++ ',' ::
      (renderString "epriv" ++ ':' :: (renderString k.epriv ++ rbrace :: rest))))
    [("epub", Json.str k.epub), ("epriv", Json.str k.epriv)] rest
    (parseValue_renderString (fuel + 2) k.priv _) h2
  have h0 := parseMembers_cons_of "pub" (renderString k.pub) (Json.str k.pub) (fuel + 3)
    (renderString "priv" ++ ':' :: (renderString k.priv ++ ',' ::
      (renderString "epub" ++ ':' :: (renderString k.epub ++ ',' ::
      (renderString "epriv" ++ ':' :: (renderString k.epriv ++ rbrace :: rest))))))
    [("priv", Json.str k.priv), ("epub", Json.str k.epub), ("epriv", Json.str k.epriv)] rest
    (parseValue_renderString (fuel + 3) k.pub _) h1
  have hfin := parseValue_obj_of (fuel + 5) "pub"
    (':' :: (renderString k.pub ++ ',' ::
      (renderString "priv" ++ ':' :: (renderString k.priv ++ ',' ::
      (renderString "epub" ++ ':' :: (renderString k.epub ++ ',' ::
      (renderString "epriv" ++ ':' :: (renderString k.epriv ++ rbrace :: rest))))))))
    [("pub", Json.str k.pub), ("priv", Json.str k.priv),
     ("epub", Json.str k.epub), ("epriv", Json.str k.epriv)] rest h0
  have hshape : renderJson (pairToJson k) ++ rest =
      lbrace :: (renderString "pub" ++ ':' :: (renderString k.pub ++ ',' ::
      (renderString "priv" ++ ':' :: (renderString k.priv ++ ',' ::
      (renderString "epub" ++ ':' :: (renderString k.epub ++ ',' ::
      (renderString "epriv" ++ ':' :: (renderString k.epriv ++ rbrace :: rest)))))))) := by
    simp [pairToJson, renderJson, renderMembers, List.append_assoc]
  rw [hshape]
  exact hfin
theorem parseValue_render_envelope (fuel : Nat) (k : SeaPair) (aliasOpt : Option String)
    (userPub : String) (now : Nat) (rest : List Char) :
    parseValue (fuel + 10) (renderJson (exportEnvelope k aliasOpt userPub now) ++ rest) =
      some (exportEnvelope k aliasOpt userPub now, rest) := by
  have h5 := parseMembers_last_of "exportedAt" (natToChars now) (Json.num now) (fuel + 3) rest
    (parseValue_render_num (fuel + 3) now (rbrace :: rest)
      (by intro c hc; simp at hc; subst hc; decide))
  have h4 := parseMembers_cons_of "username" (renderString (mkUsername aliasOpt userPub))
    (Json.str (mkUsername aliasOpt userPub)) (fuel + 4)
    (renderString "exportedAt" ++ ':' :: (natToChars now ++ rbrace :: rest))
    [("exportedAt", Json.num now)] rest
    (parseValue_renderString (fuel + 4) (mkUsername aliasOpt userPub) _) h5
  have h3 := parseMembers_cons_of "pair" (renderJson (pairToJson k)) (pairToJson k) (fuel + 5)
    (renderString "username" ++ ':' :: (renderString (mkUsername aliasOpt userPub) ++ ',' ::
      (renderString "exportedAt" ++ ':' :: (natToChars now ++ rbrace :: rest))))
    [("username", Json.str (mkUsername aliasOpt userPub)), ("exportedAt", Json.num now)] rest
    (parseValue_render_pairObj fuel k _) h4
  have h2 := parseMembers_cons_of "version" (renderString "1.0") (Json.str "1.0") (fuel + 6)
    (renderString "pair" ++ ':' :: (renderJson (pairToJson k) ++ ',' ::
      (renderString "username" ++ ':' :: (renderString (mkUsername aliasOpt userPub) ++ ',' ::
      (renderString "exportedAt" ++ ':' :: (natToChars now ++ rbrace :: rest))))))
    [("pair", pairToJson k),
     ("username", Json.str (mkUsername aliasOpt userPub)), ("exportedAt", Json.num now)] rest
    (parseValue_renderString (fuel + 6) "1.0" _) h3
  have h1 := parseMembers_cons_of "type" (renderString "shogun-auth-pair")
    (Json.str "shogun-auth-pair") (fuel + 7)
    (renderString "version" ++ ':' :: (renderString "1.0" ++ ',' ::
      (renderString "pair" ++ ':' :: (renderJson (pairToJson k) ++ ',' ::
      (renderString "username" ++ ':' :: (renderString (mkUsername aliasOpt userPub) ++ ',' ::
      (renderString "exportedAt" ++ ':' :: (natToChars now ++ rbrace :: rest))))))))
    [("version", Json.str "1.0"), ("pair", pairToJson k),
     ("username", Json.str (mkUsername aliasOpt userPub)), ("exportedAt", Json.num now)] rest
    (parseValue_renderString (fuel + 7) "shogun-auth-pair" _) h2
  have hfin := parseValue_obj_of (fuel + 9) "type"
    (':' :: (renderString "shogun-auth-pair" ++ ',' ::
      (renderString "version" ++ ':' :: (renderString "1.0" ++ ',' ::
      (renderString "pair" ++ ':' :: (renderJson (pairToJson k) ++ ',' ::
      (renderString "username" ++ ':' :: (renderString (mkUsername aliasOpt userPub) ++ ',' ::
      (renderString "exportedAt" ++ ':' :: (natToChars now ++ rbrace :: rest))))))))))
    [("type", Json.str "shogun-auth-pair"), ("version", Json.str "1.0"),
     ("pair", pairToJson k),
     ("username", Json.str (mkUsername aliasOpt userPub)), ("exportedAt", Json.num now)] rest h1
  have hshape : renderJson (exportEnvelope k aliasOpt userPub now) ++ rest =
      lbrace :: (renderString "type" ++ ':' :: (renderString "shogun-auth-pair" ++ ',' ::
      (renderString "version" ++ ':' :: (renderString "1.0" ++ ',' ::
      (renderString "pair" ++ ':' :: (renderJson (pairToJson k) ++ ',' ::
      (renderString "username" ++ ':' :: (renderString (mkUsername aliasOpt userPub) ++ ',' ::
      (renderString "exportedAt" ++ ':' :: (natToChars now ++ rbrace :: rest)))))))))) := by
    simp [exportEnvelope, renderJson, renderMembers, List.append_assoc]
  rw [hshape]
  exact hfin

theorem jsonParse_stringify_envelope (k : SeaPair) (aliasOpt : Option String)
    (userPub : String) (now : Nat) :
    jsonParse (jsonStringify (exportEnvelope k aliasOpt userPub now)) =
      some (exportEnvelope k aliasOpt userPub now) := by
  rw [jsonParse, jsonStringify]
  have hlen : (String.mk (renderJson (exportEnvelope k aliasOpt userPub now))).data.length + 16 =
      (renderJson (exportEnvelope k aliasOpt userPub now)).length + 6 + 10 := by
    simp
  rw [hlen]
  have h := parseValue_render_envelope
    ((renderJson (exportEnvelope k aliasOpt userPub now)).length + 6) k aliasOpt userPub now []
  rw [List.append_nil] at h
  rw [show (String.mk (renderJson (exportEnvelope k aliasOpt userPub now))).data =
    renderJson (exportEnvelope k aliasOpt userPub now) from rfl]
  rw [h]
theorem b64Index_b64CharOf (i : Nat) (h : i < 64) : b64Index (b64CharOf i) = some i := by
  interval_cases i <;> decide

theorem b64CharOf_ne_pad (i : Nat) (h : i < 64) : ¬ b64CharOf i = '=' := by
  interval_cases i <;> decide

theorem b64DecodeChars_encode (bs : List Nat) (h : ∀ b ∈ bs, b < 256) :
    b64DecodeChars (b64EncodeBytes bs) = some bs := by
  induction bs using b64EncodeBytes.induct with
  | case1 => rfl
  | case2 a =>
    have ha : a < 256 := h a (by simp)
    rw [b64EncodeBytes, b64DecodeChars]
    rw [b64Index_b64CharOf (a / 4) (by omega), b64Index_b64CharOf (a % 4 * 16) (by omega)]
    simp
    omega
  | case3 a b =>
    have ha : a < 256 := h a (by simp)
    have hb : b < 256 := h b (by simp)
    rw [b64EncodeBytes, b64DecodeChars]
    rw [b64Index_b64CharOf (a / 4) (by omega),
      b64Index_b64CharOf (a % 4 * 16 + b / 16) (by omega)]
    simp [b64CharOf_ne_pad (b % 16 * 4) (by omega),
      b64Index_b64CharOf (b % 16 * 4) (by omega)]
    omega
  | case4 a b c rest ih =>
    have ha : a < 256 := h a (by simp)
    have hb : b < 256 := h b (by simp)
    have hc : c < 256 := h c (by simp)
    have hrest := ih (fun x hx => h x (by simp [hx]))
    rw [b64EncodeBytes, b64DecodeChars]
    rw [b64Index_b64CharOf (a / 4) (by omega),
      b64Index_b64CharOf (a % 4 * 16 + b / 16) (by omega)]
    simp [b64CharOf_ne_pad (b % 16 * 4 + c / 64) (by omega),
      b64CharOf_ne_pad (c % 64) (by omega),
      b64Index_b64CharOf (b % 16 * 4 + c / 64) (by omega),
      b64Index_b64CharOf (c % 64) (by omega), hrest]
    refine ⟨by omega, by omega, by omega⟩

theorem atob_btoa (s : String) (b : String) (hb : btoa s = some b) :
    atob b = some s := by
  rw [btoa] at hb
  by_cases hall : s.data.all (fun c => c.toNat < 256)
  · rw [if_pos hall] at hb
    have hbytes : ∀ x ∈ s.data.map Char.toNat, x < 256 := by
      intro x hx
      simp at hx
      obtain ⟨c, hc, hcx⟩ := hx
      have := List.all_eq_true.mp hall c hc
      simp at this
      omega
    have hb2 : String.mk (b64EncodeBytes (s.data.map Char.toNat)) = b := by
      injection hb
    subst hb2
    rw [atob]
    rw [show (String.mk (b64EncodeBytes (s.data.map Char.toNat))).data =
      b64EncodeBytes (s.data.map Char.toNat) from rfl]
    rw [b64DecodeChars_encode (s.data.map Char.toNat) hbytes]
    have hmap : List.map Char.ofNat (List.map Char.toNat s.data) = s.data := by
      simp [Function.comp_def, Char.ofNat_toNat]
    simp only [hmap]
  · rw [if_neg hall] at hb
    exact absurd hb (by simp)
theorem scanValidate_envelope (k : SeaPair) (aliasOpt : Option String) (userPub : String)
    (now : Nat) (hpub : k.pub ≠ "") (hpriv : k.priv ≠ "") :
    scanValidate (exportEnvelope k aliasOpt userPub now) = Except.ok (pairToJson k) := by
  simp [scanValidate, jsGet, exportEnvelope, pairToJson, isTypeOk, fieldTruthy,
    jsGetPure, truthyOptJson, truthyJson, List.lookup, hpub, hpriv]
theorem parseValue_head_of (fuel : Nat) (c : Char) (t : List Char)
    (h1 : ¬ c = '"') (h2 : ¬ c = lbrace) (h3 : ¬ c = '[') (h4 : ¬ c = 'n')
    (h5 : ¬ c = 't') (h6 : ¬ c = 'f') (h7 : c.isDigit = false) :
    parseValue (fuel + 1) (c :: t) = none := by
  rw [parseValue, parseValueStep.eq_def]
  simp only [h1, h2, h3, h4, h5, h6, if_neg, ite_false, if_false]
  rw [parseNatTok]
  simp [List.takeWhile, h7]

theorem jsonParse_head_of (s : String) (c : Char) (hc : s.data.head? = some c)
    (h1 : ¬ c = '"') (h2 : ¬ c = lbrace) (h3 : ¬ c = '[') (h4 : ¬ c = 'n')
    (h5 : ¬ c = 't') (h6 : ¬ c = 'f') (h7 : c.isDigit = false) :
    jsonParse s = none := by
  obtain ⟨t, ht⟩ : ∃ t, s.data = c :: t := by
    cases hd : s.data with
    | nil => rw [hd] at hc; simp at hc
    | cons x xs =>
      rw [hd] at hc
      simp at hc
      subst hc
      exact ⟨xs, rfl⟩
  have hpv : parseValue (s.data.length + 16) s.data = none := by
    rw [ht]
    exact parseValue_head_of ((c :: t).length + 15) c t h1 h2 h3 h4 h5 h6 h7
  rw [jsonParse, hpv]
theorem urlToString_magic_head (origin b64 : String) (c : Char)
    (hc : origin.data.head? = some c) :
    (urlToString (mkMagicUrl origin b64)).data.head? = some c := by
  obtain ⟨t, ht⟩ : ∃ t, origin.data = c :: t := by
    cases hd : origin.data with
    | nil => rw [hd] at hc; simp at hc
    | cons x xs =>
      rw [hd] at hc
      simp at hc
      subst hc
      exact ⟨xs, rfl⟩
  have hdata : (urlToString (mkMagicUrl origin b64)).data =
      (origin.data ++ "/?".data) ++ (paramText ("magic_login", b64)).data := rfl
  rw [hdata, ht]
  simp

theorem tier2Value_parse_fail (s : String) (h : jsonParse s = none) :
    tier2Value (some s) = Json.null := by
  by_cases he : s == ""
  · simp [tier2Value, he]
  · simp [tier2Value, he, h]

theorem resolveChain_not_complete (t : ExportTiers) (h : noTierComplete t = true) :
    completePairJson (resolveChain t) = false := by
  rw [noTierComplete] at h
  simp only [Bool.and_eq_true, Bool.not_eq_true'] at h
  obtain ⟨⟨h1, h2⟩, h3⟩ := h
  rw [tier2Complete] at h2
  rw [tier3Complete] at h3
  rw [resolveChain]
  cases hsdk : t.sdkPair with
  | none =>
    simp only [if_neg (show ¬ truthyJson Json.null = true from by decide)]
    by_cases htv : truthyJson (tier2Value t.storedText) = true
    · simp [htv, h2]
    · simp [htv, h3]
  | some j =>
    rw [tier1Complete, hsdk] at h1
    have h1' : completePairJson j = false := h1
    by_cases hj : truthyJson j = true
    · simp [hj, h1']
    · by_cases htv : truthyJson (tier2Value t.storedText) = true
      · simp [hj, htv, h2]
      · simp [hj, htv, h3]
/-- C10: a falsy scanned payload (absent, or the empty string) makes the
scan import handler return at once: the state is untouched and no
payload continues into decode, validation or authentication. -/
theorem c10_falsy_scan_payload_noop (s : CompState) :
    handleScanEntry none s = (s, none) ∧ handleScanEntry (some "") s = (s, none) :=
  ⟨rfl, rfl⟩

/-- C6: cancelling a scan does return the component to the idle state, but
the import handler applies an authentication result unconditionally: a
result arriving after cancellation still closes the modal and reloads the
page on success, and still writes the error state on failure, instead of
being ignored. -/
theorem c6_stale_result_applied :
    cancelScan ⟨true, false, none⟩ = ⟨false, false, none⟩ ∧
    applyScanOutcome (Except.ok (Json.obj [])) ⟨false, false, none⟩ =
      (⟨false, false, none⟩, AuthEffect.closeAndReload) ∧
    applyScanOutcome (Except.error "auth failed") ⟨false, false, none⟩ =
      (⟨false, false, some "auth failed"⟩, AuthEffect.noEffect) :=
  ⟨rfl, rfl, rfl⟩

/-- C8: a legacy stored text that fails to parse is swallowed: resolution
proceeds exactly as if the localStorage tier were empty, so a corrupt
legacy copy never prevents resolution via another tier. -/
theorem c8_corrupt_legacy_swallowed (t1 : Option Json) (s : String) (t3 : Json)
    (h : jsonParse s = none) :
    resolvePair ⟨t1, some s, t3⟩ = resolvePair ⟨t1, none, t3⟩ := by
  have htv : tier2Value (some s) = Json.null := tier2Value_parse_fail s h
  have hchain : resolveChain ⟨t1, some s, t3⟩ = resolveChain ⟨t1, none, t3⟩ := by
    rw [resolveChain, resolveChain, htv]
    rfl
  rw [resolvePair, resolvePair, hchain]

/-- Witness for C8 at a concrete corrupt stored text. -/
theorem c8_corrupt_legacy_swallowed_witness :
    jsonParse ("not json") = none ∧
    resolvePair ⟨some (pairToJson samplePair), some ("not json"), Json.null⟩ =
      resolvePair ⟨some (pairToJson samplePair), none, Json.null⟩ :=
  ⟨rfl, c8_corrupt_legacy_swallowed (some (pairToJson samplePair)) ("not json") Json.null rfl⟩

/-- C4: for every combination of storage-tier contents the resolver only
ever returns a keypair passing the four-field completeness guard, and when
no tier holds a complete keypair it fails with the no-credential error
instead of propagating a partial keypair. -/
theorem c4_resolver_complete_or_notfound (t : ExportTiers) :
    (∀ p, resolvePair t = Except.ok p → completePairJson p = true) ∧
    (noTierComplete t = true →
      resolvePair t = Except.error "SEA pair not available - try logging in again") := by
  constructor
  · intro p hp
    rw [resolvePair] at hp
    by_cases hc : completePairJson (resolveChain t) = true
    · rw [if_pos hc] at hp
      injection hp with hp
      rw [← hp]
      exact hc
    · rw [if_neg hc] at hp
      exact absurd hp (by simp)
  · intro hnone
    have hc := resolveChain_not_complete t hnone
    rw [resolvePair, hc]
    simp

/-- Witness for C4: a complete SDK-tier keypair resolves and is complete; an
empty tier set fails with the no-credential error. -/
theorem c4_resolver_complete_or_notfound_witness :
    completePairJson (pairToJson samplePair) = true ∧
    resolvePair ⟨none, none, Json.null⟩ =
      Except.error "SEA pair not available - try logging in again" :=
  ⟨(c4_resolver_complete_or_notfound ⟨some (pairToJson samplePair), none, Json.null⟩).1
      (pairToJson samplePair) rfl,
   (c4_resolver_complete_or_notfound ⟨none, none, Json.null⟩).2 rfl⟩
/-- C2 counterexample: an envelope whose `version` is the unrecognized
string `"9.9"` but whose keypair is complete passes the scan validation and
its keypair is handed to authentication — no UnsupportedVersion (indeed no
error at all) is produced. -/
theorem c2_version_ignored_counterexample :
    handleScanParse (jsonStringify (Json.obj
      [("type", Json.str "shogun-auth-pair"), ("version", Json.str "9.9"),
       ("pair", pairToJson samplePair)])) =
      Except.ok (pairToJson samplePair) := rfl

/-- C2 amended: the scan validation never inspects the `version` field: for
every value of `version` (and of the metadata fields), an envelope with the
correct `type` and a pair whose `pub` and `priv` are truthy validates
successfully and its pair proceeds to authentication. -/
theorem c2_version_not_checked (v uname ts pairJ : Json)
    (hp : truthyJson pairJ = true) (hpub : fieldTruthy pairJ "pub" = true)
    (hpriv : fieldTruthy pairJ "priv" = true) :
    scanValidate (Json.obj
      [("type", Json.str "shogun-auth-pair"), ("version", v), ("pair", pairJ),
       ("username", uname), ("exportedAt", ts)]) = Except.ok pairJ := by
  simp [scanValidate, jsGet, isTypeOk, List.lookup, hp, hpub, hpriv]

/-- Witness for the amended C2 at a concrete unrecognized version. -/
theorem c2_version_not_checked_witness :
    scanValidate (Json.obj
      [("type", Json.str "shogun-auth-pair"), ("version", Json.str "9.9"),
       ("pair", pairToJson samplePair),
       ("username", Json.str "alice"), ("exportedAt", Json.num 0)]) =
      Except.ok (pairToJson samplePair) :=
  c2_version_not_checked (Json.str "9.9") (Json.str "alice") (Json.num 0)
    (pairToJson samplePair) rfl rfl rfl

/-- C3 counterexample: an envelope whose pair carries only `pub` and `priv`
(no `epub`, no `epriv`) passes the scan validation, and the two-field pair
is handed to the authentication step. -/
theorem c3_epub_epriv_unchecked_counterexample :
    handleScanParse (jsonStringify (Json.obj
      [("type", Json.str "shogun-auth-pair"), ("version", Json.str "1.0"),
       ("pair", Json.obj [("pub", Json.str "p1"), ("priv", Json.str "q2")])])) =
      Except.ok (Json.obj [("pub", Json.str "p1"), ("priv", Json.str "q2")]) := rfl

/-- C3 amended: the scan validation checks only `pub` and `priv` for
presence, not the resolver's four-field completeness: a pair missing
`epub`/`epriv` is accepted and handed to authentication, while a truthy
pair with a falsy `pub` is rejected with the pair-structure error. -/
theorem c3_validation_checks_pub_priv_only :
    (∀ pub priv : String, pub ≠ "" → priv ≠ "" →
      scanValidate (Json.obj
        [("type", Json.str "shogun-auth-pair"), ("version", Json.str "1.0"),
         ("pair", Json.obj [("pub", Json.str pub), ("priv", Json.str priv)])]) =
        Except.ok (Json.obj [("pub", Json.str pub), ("priv", Json.str priv)])) ∧
    (∀ pairJ : Json, truthyJson pairJ = true → fieldTruthy pairJ "pub" = false →
      scanValidate (Json.obj
        [("type", Json.str "shogun-auth-pair"), ("version", Json.str "1.0"),
         ("pair", pairJ)]) = Except.error ScanErr.invalidPairStructure) := by
  constructor
  · intro pub priv hpub hpriv
    simp [scanValidate, jsGet, isTypeOk, List.lookup, fieldTruthy, jsGetPure,
      truthyOptJson, truthyJson, hpub, hpriv]
  · intro pairJ hp hpub
    simp [scanValidate, jsGet, isTypeOk, List.lookup, hp, hpub]

/-- Witness for the amended C3 at concrete pairs. -/
theorem c3_validation_checks_pub_priv_only_witness :
    scanValidate (Json.obj
      [("type", Json.str "shogun-auth-pair"), ("version", Json.str "1.0"),
       ("pair", Json.obj [("pub", Json.str "p1"), ("priv", Json.str "q2")])]) =
      Except.ok (Json.obj [("pub", Json.str "p1"), ("priv", Json.str "q2")]) ∧
    scanValidate (Json.obj
      [("type", Json.str "shogun-auth-pair"), ("version", Json.str "1.0"),
       ("pair", Json.obj [("priv", Json.str "q2")])]) =
      Except.error ScanErr.invalidPairStructure :=
  ⟨c3_validation_checks_pub_priv_only.1 "p1" "q2" (by decide) (by decide),
   c3_validation_checks_pub_priv_only.2 (Json.obj [("priv", Json.str "q2")]) rfl rfl⟩

/-- C7 counterexample: JSON text that parses to a non-object (the number
42) is rejected with the format error, a different kind from the
SyntaxError produced for text that is not JSON at all — the claim that both
yield the same MalformedPayload kind is false. -/
theorem c7_nonobject_error_kind_differs :
    handleScanParse (jsonStringify (Json.num 42)) = Except.error ScanErr.invalidFormat ∧
    handleScanParse ("not json") = Except.error ScanErr.jsonSyntax ∧
    ScanErr.invalidFormat ≠ ScanErr.jsonSyntax :=
  ⟨rfl, rfl, by decide⟩

/-- C7 amended: unparseable text yields the SyntaxError kind; every parsed
non-object value other than null — a number, a string, a boolean or an
array — yields the format error, as does an object missing `type`; parsed
`null` raises the null-property TypeError; an object with the right `type`
but no `pair` yields the pair-structure error; and a missing `version` is
not an error at all: an envelope carrying only `type` and a pair with
truthy `pub` and `priv` validates successfully. -/
theorem c7_decode_error_kinds :
    (∀ s, jsonParse s = none → handleScanParse s = Except.error ScanErr.jsonSyntax) ∧
    (∀ n : Nat, scanValidate (Json.num n) = Except.error ScanErr.invalidFormat) ∧
    (∀ s : String, scanValidate (Json.str s) = Except.error ScanErr.invalidFormat) ∧
    (∀ b : Bool, scanValidate (Json.bool b) = Except.error ScanErr.invalidFormat) ∧
    (∀ xs : List Json, scanValidate (Json.arr xs) = Except.error ScanErr.invalidFormat) ∧
    (scanValidate Json.null = Except.error ScanErr.nullAccess) ∧
    (∀ fields, List.lookup "type" fields = none →
      scanValidate (Json.obj fields) = Except.error ScanErr.invalidFormat) ∧
    (∀ fields, List.lookup "type" fields = some (Json.str "shogun-auth-pair") →
      List.lookup "pair" fields = none →
      scanValidate (Json.obj fields) = Except.error ScanErr.invalidPairStructure) ∧
    (∀ pairJ : Json, truthyJson pairJ = true → fieldTruthy pairJ "pub" = true →
      fieldTruthy pairJ "priv" = true →
      scanValidate (Json.obj [("type", Json.str "shogun-auth-pair"), ("pair", pairJ)]) =
        Except.ok pairJ) := by
  refine ⟨?_, fun n => rfl, fun s => rfl, fun b => rfl, fun xs => rfl, rfl, ?_, ?_, ?_⟩
  · intro s hs
    rw [handleScanParse, hs]
  · intro fields hf
    simp [scanValidate, jsGet, hf, isTypeOk]
  · intro fields hf hp
    simp [scanValidate, jsGet, hf, hp, isTypeOk]
  · intro pairJ hp hpub hpriv
    simp [scanValidate, jsGet, isTypeOk, List.lookup, hp, hpub, hpriv]

/-- Witness for the amended C7 at concrete inputs, including an envelope
that lacks `version` entirely yet validates. -/
theorem c7_decode_error_kinds_witness :
    handleScanParse ("not json") = Except.error ScanErr.jsonSyntax ∧
    scanValidate (Json.obj [("version", Json.str "1.0")]) =
      Except.error ScanErr.invalidFormat ∧
    scanValidate (Json.obj [("type", Json.str "shogun-auth-pair")]) =
      Except.error ScanErr.invalidPairStructure ∧
    scanValidate (Json.obj [("type", Json.str "shogun-auth-pair"),
        ("pair", pairToJson samplePair)]) =
      Except.ok (pairToJson samplePair) :=
  ⟨c7_decode_error_kinds.1 ("not json") rfl,
   c7_decode_error_kinds.2.2.2.2.2.2.1 [("version", Json.str "1.0")] rfl,
   c7_decode_error_kinds.2.2.2.2.2.2.2.1 [("type", Json.str "shogun-auth-pair")] rfl rfl,
   c7_decode_error_kinds.2.2.2.2.2.2.2.2 (pairToJson samplePair) rfl rfl rfl⟩
/-- C5 counterexample: when the SDK tier returns a truthy but incomplete
value (an object with only `pub`) while the localStorage tier holds a
complete keypair, the resolver does not proceed to the next tier as the
claim states: it stops at the truthy value and resolution fails. -/
theorem c5_truthy_partial_blocks_fallback :
    tier2Complete ⟨some samplePartial, some (jsonStringify (pairToJson samplePair)),
      Json.null⟩ = true ∧
    resolvePair ⟨some samplePartial, some (jsonStringify (pairToJson samplePair)),
      Json.null⟩ = Except.error "SEA pair not available - try logging in again" :=
  ⟨rfl, rfl⟩

/-- C5 amended: the tiers are consulted in strict order, but the chain
stops at the first tier yielding a truthy value, complete or not: a falsy
SDK value is skipped exactly as an absent SDK tier, while a truthy
incomplete SDK value ends resolution with the no-credential error even
when a later tier is complete. -/
theorem c5_chain_stops_at_truthy (j : Json) (t2 : Option String) (t3 : Json) :
    (truthyJson j = true → resolveChain ⟨some j, t2, t3⟩ = j) ∧
    (truthyJson j = false →
      resolveChain ⟨some j, t2, t3⟩ = resolveChain ⟨none, t2, t3⟩) ∧
    (truthyJson j = true → completePairJson j = false →
      resolvePair ⟨some j, t2, t3⟩ =
        Except.error "SEA pair not available - try logging in again") := by
  refine ⟨?_, ?_, ?_⟩
  · intro hj
    simp [resolveChain, hj]
  · intro hj
    simp [resolveChain, hj, show truthyJson Json.null = false from rfl]
  · intro hj hc
    have hchain : resolveChain ⟨some j, t2, t3⟩ = j := by simp [resolveChain, hj]
    rw [resolvePair, hchain, hc]
    simp

/-- Witness for the amended C5 at a concrete truthy incomplete tier value. -/
theorem c5_chain_stops_at_truthy_witness :
    resolveChain ⟨some samplePartial, none, Json.null⟩ = samplePartial ∧
    resolvePair ⟨some samplePartial, some (jsonStringify (pairToJson samplePair)),
      Json.null⟩ = Except.error "SEA pair not available - try logging in again" :=
  ⟨(c5_chain_stops_at_truthy samplePartial none Json.null).1 rfl,
   (c5_chain_stops_at_truthy samplePartial
      (some (jsonStringify (pairToJson samplePair))) Json.null).2.2 rfl rfl⟩

set_option maxRecDepth 8192 in
/-- C1 counterexample: for a concrete complete keypair, decoding the Link
transport text through the scan handler fails with the JSON SyntaxError —
the handler only ever parses its input as JSON, never as a URL — so the
claimed round trip over the Link encoding is false. -/
theorem c1_link_decode_counterexample :
    (encodeLinkText samplePair (some ("alice")) "PUBKEY1234" 0
      "https://app.example").map handleScanParse =
      some (Except.error ScanErr.jsonSyntax) := rfl

/-- C1 amended: for every complete keypair the Raw encoding round-trips —
decoding it recovers exactly the four-field pair object, which is what is
handed to authentication — while the Link encoding never decodes: the scan
handler rejects the URL text as malformed JSON. -/
theorem c1_roundtrip_raw_only (k : SeaPair) (aliasOpt : Option String)
    (userPub : String) (now : Nat) (origin : String)
    (hk : completeSea k = true) (horigin : origin.data.head? = some 'h') :
    handleScanParse (encodeRawText k aliasOpt userPub now) = Except.ok (pairToJson k) ∧
    (∀ u, encodeLinkText k aliasOpt userPub now origin = some u →
      handleScanParse u = Except.error ScanErr.jsonSyntax) := by
  have hks : k.pub ≠ "" ∧ k.priv ≠ "" := by
    constructor
    · intro he
      rw [completeSea, he] at hk
      simp at hk
    · intro he
      rw [completeSea, he] at hk
      simp at hk
  constructor
  · rw [handleScanParse,
      show encodeRawText k aliasOpt userPub now =
        jsonStringify (exportEnvelope k aliasOpt userPub now) from rfl,
      jsonParse_stringify_envelope]
    exact scanValidate_envelope k aliasOpt userPub now hks.1 hks.2
  · intro u hu
    rw [encodeLinkText] at hu
    cases hb : encodeLinkUrl k aliasOpt userPub now origin with
    | none => rw [hb] at hu; exact absurd hu (by simp)
    | some url =>
      rw [hb] at hu
      have hu2 : urlToString url = u := by injection hu
      rw [encodeLinkUrl] at hb
      cases hbt : btoa (encodeRawText k aliasOpt userPub now) with
      | none => rw [hbt] at hb; exact absurd hb (by simp)
      | some b64 =>
        rw [hbt] at hb
        have hurl : mkMagicUrl origin b64 = url := by injection hb
        have hhead : u.data.head? = some 'h' := by
          rw [← hu2, ← hurl]
          exact urlToString_magic_head origin b64 'h' horigin
        have hnone : jsonParse u = none :=
          jsonParse_head_of u 'h' hhead (by decide) (by decide) (by decide)
            (by decide) (by decide) (by decide) (by decide)
        rw [handleScanParse, hnone]

/-- Witness for the amended C1 at concrete inputs. -/
theorem c1_roundtrip_raw_only_witness :
    completeSea samplePair = true ∧
    handleScanParse (encodeRawText samplePair (some ("alice")) "PUBKEY1234" 0) =
      Except.ok (pairToJson samplePair) :=
  ⟨by decide,
   (c1_roundtrip_raw_only samplePair (some ("alice")) "PUBKEY1234" 0
      "https://app.example" (by decide) rfl).1⟩

set_option maxRecDepth 8192 in
/-- C9 counterexample: a structurally complete keypair whose `pub` contains
the code point U+0100 makes `btoa` throw, the export effect catches, and no
URL is produced at all — the claim quantified over every complete keypair
is false. -/
theorem c9_wide_keypair_no_url :
    completeSea sampleWidePair = true ∧
    encodeLinkText sampleWidePair (some ("alice")) "PUBKEY1234" 0
      "https://app.example" = none :=
  ⟨by decide, rfl⟩

/-- C9 amended: whenever `btoa` succeeds on the canonical JSON text of the
envelope (that is, the text is 8-bit, which holds for every SEA keypair and
ASCII alias), the link encoding sets the base64 text as the single
`magic_login` query parameter on the application's own origin, and that
parameter base64-decodes back to the canonical JSON text, which parses to
the identical envelope. -/
theorem c9_link_param_reproduces_envelope (k : SeaPair) (aliasOpt : Option String)
    (userPub : String) (now : Nat) (origin : String) (b64 : String)
    (hb : btoa (encodeRawText k aliasOpt userPub now) = some b64) :
    encodeLinkUrl k aliasOpt userPub now origin = some (mkMagicUrl origin b64) ∧
    (mkMagicUrl origin b64).params = [("magic_login", b64)] ∧
    (mkMagicUrl origin b64).origin = origin ∧
    getParam (mkMagicUrl origin b64) "magic_login" = some b64 ∧
    atob b64 = some (encodeRawText k aliasOpt userPub now) ∧
    jsonParse (encodeRawText k aliasOpt userPub now) =
      some (exportEnvelope k aliasOpt userPub now) := by
  refine ⟨?_, rfl, rfl, rfl, atob_btoa _ _ hb,
    jsonParse_stringify_envelope k aliasOpt userPub now⟩
  rw [encodeLinkUrl, hb]

set_option maxRecDepth 8192 in
/-- Witness for the amended C9 at concrete inputs. -/
theorem c9_link_param_reproduces_envelope_witness :
    atob ((btoa (encodeRawText samplePair (some ("alice")) "PUBKEY1234" 0)).getD "") =
      some (encodeRawText samplePair (some ("alice")) "PUBKEY1234" 0) ∧
    getParam (mkMagicUrl "https://app.example"
        ((btoa (encodeRawText samplePair (some ("alice")) "PUBKEY1234" 0)).getD ""))
        "magic_login" =
      some ((btoa (encodeRawText samplePair (some ("alice")) "PUBKEY1234" 0)).getD "") :=
  ⟨(c9_link_param_reproduces_envelope samplePair (some ("alice")) "PUBKEY1234" 0
      "https://app.example"
      ((btoa (encodeRawText samplePair (some ("alice")) "PUBKEY1234" 0)).getD "")
      rfl).2.2.2.2.1,
   (c9_link_param_reproduces_envelope samplePair (some ("alice")) "PUBKEY1234" 0
      "https://app.example"
      ((btoa (encodeRawText samplePair (some ("alice")) "PUBKEY1234" 0)).getD "")
      rfl).2.2.2.1⟩
